import Mathlib

/-!
Verification of the patient-management service (`main.py`).

The persisted store (`patients.json`) is a JSON object mapping patient-id
strings to flat attribute maps; we embed it as an insertion-ordered
association list `Store`.  Numbers (`height`, `weight`, `bmi`) are embedded
as rationals, `age` as an integer.  `load_data`/`save_data` become explicit
state passing: every HTTP handler takes the persisted store and returns the
pair (response, persisted store afterwards).

Python semantics that matter for fidelity and are modelled explicitly:
- iterating a `dict` (`for patient in data`, `sorted(data, ...)`) yields its
  KEYS (strings) in insertion order, not its values;
- subscripting a `str` with a string (`patient["id"]` where `patient` is a
  key string) raises `TypeError`;
- calling `.get` on a `str` (the sort key function applied to a key string)
  raises `AttributeError`;
- a handler that falls off the end of a `for` loop without returning
  returns `None` (serialized by the framework as HTTP 200 with a null body);
- `dict` assignment `d[k] = v` overwrites in place when `k` is present and
  appends at the end otherwise; `del d[k]` removes the unique entry of `k`;
- `Patient.model_dump` includes the two `computed_field`s `bmi`/`verdict`,
  so persisted records carry them; `Patient(**fields)` ignores the stale
  `bmi`/`verdict` keys of a stored record (pydantic default `extra`
  handling) and revalidates the constraints declared with `Field`
  (`0 < age < 120`, `height > 0`, `weight > 0`), raising `ValidationError`
  otherwise.
Uncaught Python exceptions inside a handler are embedded as
`HResult.pyError` with the exception class name; `raise HTTPException` is
embedded as `HResult.httpError` with the status code (detail strings are
abbreviated).  `round(x, 2)` is Python banker's rounding to two decimals,
embedded on rationals as `pyRound2`.
-/

namespace PatientMS

/-- A record as persisted in `patients.json` under a patient-id key: the
output of `Patient.model_dump(exclude=["id"])`, which includes the two
computed fields `bmi` and `verdict`. -/
structure StoredPatient where
  name : String
  city : String
  age : Int
  gender : String
  height : ℚ
  weight : ℚ
  bmi : ℚ
  verdict : String
deriving DecidableEq, Repr

/-- The persisted store: the JSON object of `patients.json`, a mapping from
patient-id strings to records, embedded as an insertion-ordered association
list with unique keys (a Python `dict`). -/
abbrev Store := List (String × StoredPatient)

/-- Result of running one HTTP handler body: a normal return value, a
`raise HTTPException(status_code, ...)`, or an uncaught Python exception
(named by its class), which the server surfaces as HTTP 500. -/
inductive HResult (α : Type) where
  | ok (val : α)
  | httpError (status : Nat) (detail : String)
  | pyError (exn : String)
deriving DecidableEq, Repr

/-- Python `round(q, 2)` on the exact value: round `100 * q` to the nearest
integer, ties to even (banker's rounding), then divide by `100`. -/
def roundHalfEven (q : ℚ) : ℤ :=
  if q - ⌊q⌋ < 1/2 then ⌊q⌋
  else if 1/2 < q - ⌊q⌋ then ⌊q⌋ + 1
  else if ⌊q⌋ % 2 = 0 then ⌊q⌋ else ⌊q⌋ + 1

/-- Embedding of Python `round(q, 2)`. -/
def pyRound2 (q : ℚ) : ℚ := (roundHalfEven (q * 100) : ℚ) / 100

/-- The `Patient` pydantic model's declared (non-computed) fields. -/
structure Patient where
  id : String
  name : String
  city : String
  age : Int
  gender : String
  height : ℚ
  weight : ℚ
deriving DecidableEq, Repr

/-- Computed field `Patient.bmi`: `round(self.weight / self.height ** 2, 2)`. -/
def Patient.bmi (p : Patient) : ℚ := pyRound2 (p.weight / p.height ^ 2)

/-- The `if/elif` chain of `Patient.verdict`, as a function of the bmi value. -/
def verdictOf (b : ℚ) : String :=
  if b < 18.5 then "Underweight"
  else if 18.5 ≤ b ∧ b < 24.9 then "Normal weight"
  else if 25 ≤ b ∧ b < 29.9 then "Overweight"
  else "Obese"

/-- Computed field `Patient.verdict`: the band chain applied to `self.bmi`. -/
def Patient.verdict (p : Patient) : String := verdictOf p.bmi

/-- `Patient.model_dump(exclude=["id"])`: the persisted snapshot of a
patient, computed fields included. -/
def Patient.model_dump (p : Patient) : StoredPatient :=
  { name := p.name, city := p.city, age := p.age, gender := p.gender,
    height := p.height, weight := p.weight, bmi := p.bmi, verdict := p.verdict }

/-- Constructing `Patient(**fields)`: pydantic revalidates the `Field`
constraints (`gt=0, lt=120` on age, `gt=0` on height and weight) and raises
`ValidationError` on violation.  The `Literal` for gender sits in
`Annotated` metadata only, so no enumeration check is applied. -/
def mkPatient (id name city : String) (age : Int) (gender : String)
    (height weight : ℚ) : Option Patient :=
  if 0 < age ∧ age < 120 ∧ 0 < height ∧ 0 < weight then
    some ⟨id, name, city, age, gender, height, weight⟩
  else none

/-- The `PatientUpdate` pydantic model: every field optional, `none`
meaning the field was not supplied in the request body, so that
`model_dump(exclude_unset=True)` omits it. -/
structure PatientUpdate where
  name : Option String
  city : Option String
  age : Option Int
  gender : Option String
  height : Option ℚ
  weight : Option ℚ
deriving DecidableEq, Repr

/-- Python `patient_id in data` on the store dict. -/
def dictContains (d : Store) (k : String) : Bool :=
  match d with
  | [] => false
  | (k', _) :: rest => k' = k || dictContains rest k

/-- Python `data[k]` read on the store dict (partiality as `Option`; the
source only reads keys it has checked for membership). -/
def dictGet (d : Store) (k : String) : Option StoredPatient :=
  match d with
  | [] => none
  | (k', v') :: rest => if k' = k then some v' else dictGet rest k

/-- Python `data[k] = v`: overwrite in place if present, else append. -/
def dictSet (d : Store) (k : String) (v : StoredPatient) : Store :=
  match d with
  | [] => [(k, v)]
  | (k', v') :: rest => if k' = k then (k, v) :: rest else (k', v') :: dictSet rest k v

/-- Python `del data[k]`: drop the (unique) entry with key `k`. -/
def dictDel (d : Store) (k : String) : Store :=
  match d with
  | [] => []
  | (k', v') :: rest => if k' = k then rest else (k', v') :: dictDel rest k

/-- `load_data()`: read the whole persisted mapping. -/
def load_data (fs : Store) : Store := fs

/-- `save_data(data)`: overwrite the whole persisted mapping. -/
def save_data (d : Store) (_fs : Store) : Store := d

/-- Handler `GET /view`: return the loaded store; no save. -/
def view (fs : Store) : HResult Store × Store :=
  let data := load_data fs
  (.ok data, fs)

/-- The `for patient in data` loop of `view_patient`, iterating over the
dict's keys.  On the first iteration the body evaluates `patient["id"]`
where `patient` is a key string, which raises `TypeError` (string indices
must be integers), so the match test and the mis-indented
`raise HTTPException(404)` inside the loop are never reached.  With no
keys, the loop exits and the handler falls through, returning `None`. -/
def viewPatientScan (_patient_id : Int) (keys : List String) :
    HResult (Option StoredPatient) :=
  match keys with
  | [] => .ok none
  | _key :: _rest => .pyError "TypeError"

/-- Handler `GET /patients/patient_id` (`view_patient`); the path parameter
is declared `int`.  No save. -/
def view_patient (patient_id : Int) (fs : Store) :
    HResult (Option StoredPatient) × Store :=
  let data := load_data fs
  (viewPatientScan patient_id (data.map Prod.fst), fs)

/-- Handler `GET /sort` (`sort_patients`).  After the two parameter checks,
`sorted(data, key=lambda x: x.get(sort_by, 0), ...)` iterates the dict's
keys; the key function calls `.get` on a `str`, raising `AttributeError`
on any non-empty store.  `sorted` of an empty dict is `[]`.  No save. -/
def sort_patients (sort_by : String) (order : String) (fs : Store) :
    HResult (List String) × Store :=
  if ¬ (sort_by = "gender" ∨ sort_by = "age") then
    (.httpError 400 "Invalid sort field", fs)
  else if ¬ (order = "asc" ∨ order = "desc") then
    (.httpError 400 "Invalid order", fs)
  else
    let data := load_data fs
    match data.map Prod.fst with
    | [] => (.ok [], fs)
    | _ :: _ => (.pyError "AttributeError", fs)

/-- Handler `POST /create` (`create_patient`): reject a duplicate id with
status 400, else persist the dump of the new patient under its id. -/
def create_patient (p : Patient) (fs : Store) : HResult Unit × Store :=
  let data := load_data fs
  if dictContains data p.id then
    (.httpError 400 "Patient already exists", fs)
  else
    let data' := dictSet data p.id p.model_dump
    (.ok (), save_data data' fs)

/-- Handler `PUT /edit/patient_id` (`update_patient`): 404 when the id is
absent; otherwise overlay exactly the fields present in the payload onto
the stored fields, rebuild a `Patient` (revalidation plus recomputation of
`bmi`/`verdict`; a pydantic `ValidationError` escapes uncaught), and
persist its dump under the same key. -/
def update_patient (patient_id : String) (u : PatientUpdate) (fs : Store) :
    HResult Unit × Store :=
  let data := load_data fs
  match dictGet data patient_id with
  | none => (.httpError 404 "Patient not found", fs)
  | some e =>
    match mkPatient patient_id (u.name.getD e.name) (u.city.getD e.city)
        (u.age.getD e.age) (u.gender.getD e.gender) (u.height.getD e.height)
        (u.weight.getD e.weight) with
    | none => (.pyError "ValidationError", fs)
    | some p =>
      let data' := dictSet data patient_id p.model_dump
      (.ok (), save_data data' fs)

/-- Handler `DELETE /delete/patient_id` (`delete_patient`): 404 when the id
is absent; otherwise remove the key and persist. -/
def delete_patient (patient_id : String) (fs : Store) : HResult Unit × Store :=
  let data := load_data fs
  if ¬ dictContains data patient_id then
    (.httpError 404 "Patient not found", fs)
  else
    (.ok (), save_data (dictDel data patient_id) fs)

/-! Sample data used by witnesses and counterexample evaluations. -/

/-- A stored record: height 2 m, weight 80 kg, so bmi 20, Normal weight. -/
def rec1 : StoredPatient :=
  { name := "Ann", city := "Oslo", age := 30, gender := "Female",
    height := 2, weight := 80, bmi := 20, verdict := "Normal weight" }

/-- A one-record store under key "1". -/
def store1 : Store := [("1", rec1)]

/-- Update payload supplying only `age`. -/
def uAgeOnly : PatientUpdate := ⟨none, none, some 40, none, none, none⟩

/-- Update payload supplying only `weight` (90 kg). -/
def uW90 : PatientUpdate := ⟨none, none, none, none, none, some 90⟩

/-- What `rec1` becomes after the age-only update: same fields except age. -/
def rec1at40 : StoredPatient :=
  { name := "Ann", city := "Oslo", age := 40, gender := "Female",
    height := 2, weight := 80, bmi := 20, verdict := "Normal weight" }

/-- A fresh patient for create: bmi 72 / 4 = 18, Underweight. -/
def pNew : Patient := ⟨"2", "Bob", "Pune", 25, "Male", 2, 72⟩

/-- A patient whose id collides with `store1`. -/
def pDup : Patient := ⟨"1", "Bob", "Pune", 25, "Male", 2, 72⟩

/-- A valid patient used to instantiate the bmi/verdict claim. -/
def p2 : Patient := ⟨"P1", "Ann", "Oslo", 30, "Female", 2, 80⟩

/-- A second record, age 20. -/
def recB : StoredPatient :=
  { name := "Ben", city := "Pune", age := 20, gender := "Male",
    height := 2, weight := 80, bmi := 20, verdict := "Normal weight" }

/-- A third record, age 25. -/
def recC : StoredPatient :=
  { name := "Cam", city := "Rome", age := 25, gender := "Other",
    height := 2, weight := 80, bmi := 20, verdict := "Normal weight" }

/-- A three-record store with ages 30, 20, 25 in insertion order. -/
def store3 : Store := [("1", rec1), ("2", recB), ("3", recC)]

/-- What `pNew.model_dump` persists: bmi 18, Underweight. -/
def recNew : StoredPatient :=
  { name := "Bob", city := "Pune", age := 25, gender := "Male",
    height := 2, weight := 72, bmi := 18, verdict := "Underweight" }

/-! Helper lemmas. -/

/-- Reading back the key just written by `dictSet`. -/
theorem dictGet_dictSet_self (d : Store) (k : String) (v : StoredPatient) :
    dictGet (dictSet d k v) k = some v := by
  induction d with
  | nil => simp [dictSet, dictGet]
  | cons kv rest ih =>
    obtain ⟨k', v'⟩ := kv
    by_cases hk : k' = k
    · simp [dictSet, dictGet, hk]
    · simp [dictSet, dictGet, hk, ih]

/-- A successfully constructed `Patient` is exactly the supplied fields. -/
theorem mkPatient_some {i n c : String} {a : Int} {g : String} {h w : ℚ}
    {p : Patient} (hp : mkPatient i n c a g h w = some p) :
    p = ⟨i, n, c, a, g, h, w⟩ := by
  unfold mkPatient at hp
  split at hp
  · exact (Option.some.inj hp).symm
  · simp at hp

/-- Band lemma: bmi below 18.5. -/
theorem verdictOf_underweight {b : ℚ} (h : b < 18.5) :
    verdictOf b = "Underweight" := by
  unfold verdictOf
  rw [if_pos h]

/-- Band lemma: bmi in the Normal band. -/
theorem verdictOf_normal {b : ℚ} (h1 : 18.5 ≤ b) (h2 : b < 24.9) :
    verdictOf b = "Normal weight" := by
  unfold verdictOf
  rw [if_neg (not_lt.2 h1), if_pos ⟨h1, h2⟩]

/-- Band lemma: bmi in the Overweight band. -/
theorem verdictOf_overweight {b : ℚ} (h1 : 25 ≤ b) (h2 : b < 29.9) :
    verdictOf b = "Overweight" := by
  unfold verdictOf
  rw [if_neg (by push_neg; linarith), if_neg (by push_neg; intro _; linarith),
    if_pos ⟨h1, h2⟩]

/-- Band lemma: the final `else` branch. -/
theorem verdictOf_obese {b : ℚ} (h1 : ¬ b < 18.5)
    (h2 : ¬ (18.5 ≤ b ∧ b < 24.9)) (h3 : ¬ (25 ≤ b ∧ b < 29.9)) :
    verdictOf b = "Obese" := by
  unfold verdictOf
  rw [if_neg h1, if_neg h2, if_neg h3]

/-! Claim theorems. -/

/-- Claim C1 (code bug, counterexample evaluation): the get-by-id handler
does not implement "return the matching record, else NotFound after a full
scan".  On the non-empty store `store1`, requesting id 1 crashes with
`TypeError` before any record is examined (dict iteration yields the key
strings and `patient["id"]` subscripts a `str`); on the empty store the
loop body never runs and the handler returns `None` (HTTP 200), not the
NotFound error the claim requires. -/
theorem C1_get_by_id_bug_eval :
    (view_patient 1 store1).1 = .pyError "TypeError"
    ∧ (view_patient 1 ([] : Store)).1 = .ok none :=
  ⟨rfl, rfl⟩

/-- Claim C2: for a patient with positive height and weight, `bmi` is
`round(weight / height ** 2, 2)` and `verdict` follows the four-band rule:
Underweight below 18.5, Normal weight on [18.5, 24.9), Overweight on
[25, 29.9), Obese otherwise — in particular any bmi in [24.9, 25) is
classified Obese. -/
theorem C2_bmi_and_verdict_bands (p : Patient)
    (hh : 0 < p.height) (hw : 0 < p.weight) :
    p.bmi = pyRound2 (p.weight / p.height ^ 2)
    ∧ (p.bmi < 18.5 → p.verdict = "Underweight")
    ∧ (18.5 ≤ p.bmi → p.bmi < 24.9 → p.verdict = "Normal weight")
    ∧ (25 ≤ p.bmi → p.bmi < 29.9 → p.verdict = "Overweight")
    ∧ (¬ p.bmi < 18.5 → ¬ (18.5 ≤ p.bmi ∧ p.bmi < 24.9) →
        ¬ (25 ≤ p.bmi ∧ p.bmi < 29.9) → p.verdict = "Obese")
    ∧ (24.9 ≤ p.bmi → p.bmi < 25 → p.verdict = "Obese") := by
  refine ⟨rfl, ?_, ?_, ?_, ?_, ?_⟩
  · exact fun h => verdictOf_underweight h
  · exact fun h1 h2 => verdictOf_normal h1 h2
  · exact fun h1 h2 => verdictOf_overweight h1 h2
  · exact fun h1 h2 h3 => verdictOf_obese h1 h2 h3
  · intro h1 h2
    exact verdictOf_obese (by push_neg; linarith)
      (by push_neg; intro _; linarith) (by push_neg; intro _; linarith)

/-- Witness for C2 at the concrete patient `p2` (height 2, weight 80). -/
theorem C2_bmi_and_verdict_bands_witness :
    (0 : ℚ) < p2.height ∧ (0 : ℚ) < p2.weight
    ∧ (p2.bmi = pyRound2 (p2.weight / p2.height ^ 2)
      ∧ (p2.bmi < 18.5 → p2.verdict = "Underweight")
      ∧ (18.5 ≤ p2.bmi → p2.bmi < 24.9 → p2.verdict = "Normal weight")
      ∧ (25 ≤ p2.bmi → p2.bmi < 29.9 → p2.verdict = "Overweight")
      ∧ (¬ p2.bmi < 18.5 → ¬ (18.5 ≤ p2.bmi ∧ p2.bmi < 24.9) →
          ¬ (25 ≤ p2.bmi ∧ p2.bmi < 29.9) → p2.verdict = "Obese")
      ∧ (24.9 ≤ p2.bmi → p2.bmi < 25 → p2.verdict = "Obese")) :=
  ⟨by norm_num [p2], by norm_num [p2],
    C2_bmi_and_verdict_bands p2 (by norm_num [p2]) (by norm_num [p2])⟩

/-- Claim C5: creating a patient whose id is already a key of the store
fails with status 400 and leaves the persisted store — in particular the
record under that id — exactly as before. -/
theorem C5_create_conflict (p : Patient) (fs : Store)
    (h : dictContains fs p.id = true) :
    (create_patient p fs).1 = .httpError 400 "Patient already exists"
    ∧ (create_patient p fs).2 = fs
    ∧ dictGet (create_patient p fs).2 p.id = dictGet fs p.id := by
  refine ⟨?_, ?_, ?_⟩ <;> simp [create_patient, load_data, h]

/-- Witness for C5: creating `pDup` over `store1`. -/
theorem C5_create_conflict_witness :
    dictContains store1 pDup.id = true
    ∧ ((create_patient pDup store1).1 = .httpError 400 "Patient already exists"
      ∧ (create_patient pDup store1).2 = store1
      ∧ dictGet (create_patient pDup store1).2 pDup.id = dictGet store1 pDup.id) :=
  ⟨by simp [dictContains, store1, pDup],
    C5_create_conflict pDup store1 (by simp [dictContains, store1, pDup])⟩

/-- Claim C10: the query handlers (list all, get by id, sort) never call
`save_data`: the persisted store after each of them equals the persisted
store before. -/
theorem C10_queries_never_save (fs : Store) (patient_id : Int)
    (sort_by order : String) :
    (view fs).2 = fs ∧ (view_patient patient_id fs).2 = fs
    ∧ (sort_patients sort_by order fs).2 = fs := by
  refine ⟨rfl, rfl, ?_⟩
  unfold sort_patients load_data
  split_ifs <;> first | rfl | (cases fs <;> rfl)

/-- Claim C3: a partial update overlays exactly the fields present in the
payload onto the stored fields: whenever the update succeeds, each
persisted non-derived field is the payload's value when supplied and the
previously stored value otherwise; and for an age-only payload the five
other fields of the record under that id are unchanged whatever the
outcome. -/
theorem C3_update_overlays_only_present_fields (patient_id : String)
    (fs : Store) (e : StoredPatient) (u : PatientUpdate)
    (hget : dictGet fs patient_id = some e) :
    (∀ fs' r, update_patient patient_id u fs = (.ok (), fs') →
        dictGet fs' patient_id = some r →
        r.name = u.name.getD e.name ∧ r.city = u.city.getD e.city
        ∧ r.age = u.age.getD e.age ∧ r.gender = u.gender.getD e.gender
        ∧ r.height = u.height.getD e.height ∧ r.weight = u.weight.getD e.weight)
    ∧ (u.name = none → u.city = none → u.gender = none → u.height = none →
        u.weight = none →
        ∀ r, dictGet (update_patient patient_id u fs).2 patient_id = some r →
        r.name = e.name ∧ r.city = e.city ∧ r.gender = e.gender
        ∧ r.height = e.height ∧ r.weight = e.weight) := by
  cases hmk : mkPatient patient_id (u.name.getD e.name) (u.city.getD e.city)
      (u.age.getD e.age) (u.gender.getD e.gender) (u.height.getD e.height)
      (u.weight.getD e.weight) with
  | none =>
    have hupd : update_patient patient_id u fs = (.pyError "ValidationError", fs) := by
      simp only [update_patient, load_data, hget, hmk]
    constructor
    · intro fs' r hok _
      rw [hupd] at hok
      simp at hok
    · intro _ _ _ _ _ r hr
      rw [hupd] at hr
      rw [hget] at hr
      obtain rfl : e = r := Option.some.inj hr
      exact ⟨rfl, rfl, rfl, rfl, rfl⟩
  | some p =>
    have hupd : update_patient patient_id u fs
        = (.ok (), dictSet fs patient_id p.model_dump) := by
      simp only [update_patient, load_data, hget, hmk, save_data]
    constructor
    · intro fs' r hok hr
      rw [hupd] at hok
      injection hok with _ h2
      subst h2
      rw [dictGet_dictSet_self] at hr
      obtain rfl : p.model_dump = r := Option.some.inj hr
      rw [mkPatient_some hmk]
      exact ⟨rfl, rfl, rfl, rfl, rfl, rfl⟩
    · intro hn hc hg hh hw r hr
      rw [hupd] at hr
      rw [dictGet_dictSet_self] at hr
      obtain rfl : p.model_dump = r := Option.some.inj hr
      rw [mkPatient_some hmk]
      simp [Patient.model_dump, hn, hc, hg, hh, hw]

/-- Witness for C3: the age-only update `uAgeOnly` over `store1` persists
`rec1at40`, whose other five fields match `rec1`. -/
theorem C3_update_overlays_only_present_fields_witness :
    dictGet store1 "1" = some rec1
    ∧ (rec1at40.name = rec1.name ∧ rec1at40.city = rec1.city
      ∧ rec1at40.gender = rec1.gender ∧ rec1at40.height = rec1.height
      ∧ rec1at40.weight = rec1.weight) := by
  refine ⟨by simp [dictGet, store1], ?_⟩
  exact (C3_update_overlays_only_present_fields "1" store1 rec1 uAgeOnly
      (by simp [dictGet, store1])).2 rfl rfl rfl rfl rfl rec1at40
    (by norm_num [update_patient, load_data, dictGet, store1, rec1, mkPatient,
      uAgeOnly, save_data, dictSet, Patient.model_dump, Patient.bmi,
      Patient.verdict, verdictOf, pyRound2, roundHalfEven, rec1at40])

/-- Claim C4: a successful update whose payload supplies a new weight and
no height persists a record whose bmi and verdict are recomputed from the
new weight and the previously stored height. -/
theorem C4_update_weight_recomputes (patient_id : String) (fs : Store)
    (e : StoredPatient) (u : PatientUpdate) (w : ℚ)
    (hget : dictGet fs patient_id = some e)
    (hw : u.weight = some w) (hh : u.height = none)
    (hok : (update_patient patient_id u fs).1 = .ok ()) :
    ∃ r, dictGet (update_patient patient_id u fs).2 patient_id = some r
      ∧ r.height = e.height ∧ r.weight = w
      ∧ r.bmi = pyRound2 (w / e.height ^ 2)
      ∧ r.verdict = verdictOf (pyRound2 (w / e.height ^ 2)) := by
  cases hmk : mkPatient patient_id (u.name.getD e.name) (u.city.getD e.city)
      (u.age.getD e.age) (u.gender.getD e.gender) (u.height.getD e.height)
      (u.weight.getD e.weight) with
  | none =>
    have hupd : update_patient patient_id u fs = (.pyError "ValidationError", fs) := by
      simp only [update_patient, load_data, hget, hmk]
    rw [hupd] at hok
    simp at hok
  | some p =>
    have hupd : update_patient patient_id u fs
        = (.ok (), dictSet fs patient_id p.model_dump) := by
      simp only [update_patient, load_data, hget, hmk, save_data]
    refine ⟨p.model_dump, ?_, ?_, ?_, ?_, ?_⟩
    · rw [hupd]
      exact dictGet_dictSet_self ..
    all_goals
      rw [mkPatient_some hmk]
      simp [Patient.model_dump, Patient.bmi, Patient.verdict, hw, hh]

/-- Witness for C4: the weight-only update `uW90` over `store1`. -/
theorem C4_update_weight_recomputes_witness :
    dictGet store1 "1" = some rec1 ∧ uW90.weight = some 90 ∧ uW90.height = none
    ∧ (update_patient "1" uW90 store1).1 = .ok ()
    ∧ ∃ r, dictGet (update_patient "1" uW90 store1).2 "1" = some r
        ∧ r.height = rec1.height ∧ r.weight = 90
        ∧ r.bmi = pyRound2 (90 / rec1.height ^ 2)
        ∧ r.verdict = verdictOf (pyRound2 (90 / rec1.height ^ 2)) :=
  ⟨by simp [dictGet, store1], rfl, rfl,
    by norm_num [update_patient, load_data, dictGet, store1, rec1, mkPatient,
      uW90, save_data, dictSet],
    C4_update_weight_recomputes "1" store1 rec1 uW90 90
      (by simp [dictGet, store1]) rfl rfl
      (by norm_num [update_patient, load_data, dictGet, store1, rec1, mkPatient,
        uW90, save_data, dictSet])⟩

/-- Claim C6 (code bug, counterexample evaluation): invalid sort
parameters do yield status 400, but on valid parameters the handler is not
error-free: with `sort_by="age", order="asc"` over the non-empty store
`store1` it crashes with `AttributeError` (the key function calls `.get`
on the dict's key strings). -/
theorem C6_sort_valid_params_crash :
    (sort_patients "age" "asc" store1).1 = .pyError "AttributeError"
    ∧ (sort_patients "name" "asc" store1).1 = .httpError 400 "Invalid sort field"
    ∧ (sort_patients "age" "up" store1).1 = .httpError 400 "Invalid order" := by
  refine ⟨?_, ?_, ?_⟩ <;> simp [sort_patients, load_data, store1]

/-- Claim C7 (code bug, counterexample evaluation): sorting the
three-record store with ages [30, 20, 25] by age never returns the
reordered records: both directions crash with `AttributeError` because
`sorted` iterates the dict's key strings. -/
theorem C7_sort_by_age_crashes :
    (sort_patients "age" "asc" store3).1 = .pyError "AttributeError"
    ∧ (sort_patients "age" "desc" store3).1 = .pyError "AttributeError" := by
  constructor <;> simp [sort_patients, load_data, store3]

/-- Claim C8 (code bug, counterexample evaluation): delete succeeds, but
the subsequent get-by-id on the deleted id does not raise NotFound: with
the store left empty it returns `None` (HTTP 200), and with other records
remaining it crashes with `TypeError`. -/
theorem C8_delete_then_get_eval :
    (delete_patient "1" store1).1 = .ok ()
    ∧ (delete_patient "1" store1).2 = []
    ∧ (view_patient 1 (delete_patient "1" store1).2).1 = .ok none
    ∧ (view_patient 2 (delete_patient "1" store3).2).1 = .pyError "TypeError" := by
  refine ⟨?_, ?_, ?_, ?_⟩ <;>
    simp [delete_patient, load_data, dictContains, dictDel, save_data,
      store1, store3, view_patient, viewPatientScan]

/-- Claim C9: every successful create or update persists, under the given
id, a record whose bmi and verdict equal a fresh computation from that
record's own persisted height and weight. -/
theorem C9_persisted_derived_fields_fresh (p : Patient) (patient_id : String)
    (u : PatientUpdate) (fs : Store) :
    (∀ fs', create_patient p fs = (.ok (), fs') →
      ∃ r, dictGet fs' p.id = some r
        ∧ r.bmi = pyRound2 (r.weight / r.height ^ 2)
        ∧ r.verdict = verdictOf r.bmi)
    ∧ (∀ fs', update_patient patient_id u fs = (.ok (), fs') →
      ∃ r, dictGet fs' patient_id = some r
        ∧ r.bmi = pyRound2 (r.weight / r.height ^ 2)
        ∧ r.verdict = verdictOf r.bmi) := by
  constructor
  · intro fs' hok
    by_cases hc : dictContains fs p.id
    · have hcreate : create_patient p fs
          = (.httpError 400 "Patient already exists", fs) := by
        simp [create_patient, load_data, hc]
      rw [hcreate] at hok
      simp at hok
    · have hcreate : create_patient p fs
          = (.ok (), dictSet fs p.id p.model_dump) := by
        simp [create_patient, load_data, hc, save_data]
      rw [hcreate] at hok
      injection hok with _ h2
      subst h2
      refine ⟨p.model_dump, dictGet_dictSet_self .., ?_, ?_⟩
      · simp [Patient.model_dump, Patient.bmi]
      · simp [Patient.model_dump, Patient.verdict, Patient.bmi]
  · intro fs' hok
    cases hg : dictGet fs patient_id with
    | none =>
      have hupd : update_patient patient_id u fs
          = (.httpError 404 "Patient not found", fs) := by
        simp only [update_patient, load_data, hg]
      rw [hupd] at hok
      simp at hok
    | some e =>
      cases hmk : mkPatient patient_id (u.name.getD e.name) (u.city.getD e.city)
          (u.age.getD e.age) (u.gender.getD e.gender) (u.height.getD e.height)
          (u.weight.getD e.weight) with
      | none =>
        have hupd : update_patient patient_id u fs
            = (.pyError "ValidationError", fs) := by
          simp only [update_patient, load_data, hg, hmk]
        rw [hupd] at hok
        simp at hok
      | some q =>
        have hupd : update_patient patient_id u fs
            = (.ok (), dictSet fs patient_id q.model_dump) := by
          simp only [update_patient, load_data, hg, hmk, save_data]
        rw [hupd] at hok
        injection hok with _ h2
        subst h2
        refine ⟨q.model_dump, dictGet_dictSet_self .., ?_, ?_⟩
        · simp [Patient.model_dump, Patient.bmi]
        · simp [Patient.model_dump, Patient.verdict, Patient.bmi]

/-- Witness for C9: creating `pNew` in the empty store persists `recNew`,
whose bmi and verdict match a fresh computation. -/
theorem C9_persisted_derived_fields_fresh_witness :
    create_patient pNew [] = (.ok (), [("2", recNew)])
    ∧ ∃ r, dictGet [("2", recNew)] pNew.id = some r
        ∧ r.bmi = pyRound2 (r.weight / r.height ^ 2)
        ∧ r.verdict = verdictOf r.bmi :=
  ⟨by norm_num [create_patient, load_data, dictContains, dictSet, save_data,
      Patient.model_dump, Patient.bmi, Patient.verdict, verdictOf,
      pyRound2, roundHalfEven, pNew, recNew],
    (C9_persisted_derived_fields_fresh pNew "x" uAgeOnly []).1 [("2", recNew)]
      (by norm_num [create_patient, load_data, dictContains, dictSet, save_data,
        Patient.model_dump, Patient.bmi, Patient.verdict, verdictOf,
        pyRound2, roundHalfEven, pNew, recNew])⟩

end PatientMS
